import Mathlib

/-!
Verification of the pgxscan database-access facade.

The Go sources are shallowly embedded: pure routing helpers become Lean
functions; the external collaborators (pgx pool, connections, transactions,
the scany mapping engine) become explicit environments of functions; the
`defer`-based cleanup of `InTx` and the facade's timeout contexts become
explicit sequencing over a small runtime state.  Machine-irrelevant payloads
(destinations, SQL text, arguments) are carried through verbatim as opaque
data so that routing decisions are observable.
-/

namespace Pgxscan

/-- Transaction handles (`pgx.Tx`) are identified by their identity only. -/
abbrev Tx := Nat

/-- Acquired pooled connections (`*pgxpool.Conn`), identified by identity. -/
abbrev Conn := Nat

/-- `pgx.TxIsoLevel` is a string type in pgx. -/
abbrev TxIsoLevel := String

/-- `pgconn.CommandTag` is a wrapped string. -/
abbrev CommandTag := String

/-- Scan destinations (`interface{}` pointers) are opaque; only identity matters. -/
abbrev Dest := Nat

/-- Go `error` values as they are built by this package: the `pgx.ErrNoRows`
sentinel, the package's own records-not-found sentinel, `context.Canceled`,
plain `errors.New`-style leaves, `fmt.Errorf("msg: %w", cause)` wrapping, and
the one `fmt.Errorf("rolling back transaction: %v (original error: %w)", rb, orig)`
shape from `InTx` (whose `Unwrap` reaches `orig` only, `rb` being rendered
into the message by `%v`). -/
inductive GoErr where
  | errNoRows : GoErr
  | errRecordsNotFound : GoErr
  | canceled : GoErr
  | base : String → GoErr
  | fmtWrap : String → GoErr → GoErr
  | fmtRollback : GoErr → GoErr → GoErr
deriving DecidableEq, Repr

/-- Modelled from the spec: the repository uses a sentinel `ErrRecordsNotFound`
whose declaration (an `errors.New` package-level variable) is not among the
provided sources; per §7 it is the distinguished RecordsNotFound outcome,
distinct from every other error kind. -/
def ErrRecordsNotFound : GoErr := .errRecordsNotFound

/-- Go's `errors.Is`: target equality at each level of the `%w` unwrap chain. -/
def errorsIs : GoErr → GoErr → Bool
  | .fmtWrap msg cause, target =>
      decide (GoErr.fmtWrap msg cause = target) || errorsIs cause target
  | .fmtRollback rb orig, target =>
      decide (GoErr.fmtRollback rb orig = target) || errorsIs orig target
  | e, target => decide (e = target)

/-- External collaborator (scany): `pgxscan.NotFound(err)` reports
`errors.Is(err, pgx.ErrNoRows)`. -/
def pgxscanNotFound (e : GoErr) : Bool := errorsIs e .errNoRows

/-- Go `context.Context` chains as this package observes them: the caller's
root context, `context.WithValue(ctx, txCtxKey, tx)` nodes, and
`context.WithTimeout(ctx, d)` nodes.  A timeout node carries its duration and
a unique identifier used to track its cancel function. -/
inductive Context where
  | base : Context
  | withTx : Context → Tx → Context
  | withTimeout : Context → Int → Nat → Context
deriving DecidableEq, Repr

/-- `contextWithTx(ctx, tx)`: `context.WithValue(ctx, txCtxKey, tx)`. -/
def contextWithTx (ctx : Context) (tx : Tx) : Context :=
  Context.withTx ctx tx

/-- `txFromContext(ctx)`: `ctx.Value(txCtxKey)` with a type assertion — the
nearest `txCtxKey` value walking from `ctx` toward the root, or none. -/
def txFromContext : Context → Option Tx
  | .base => none
  | .withTx _ tx => some tx
  | .withTimeout parent _ _ => txFromContext parent

/-- Whether any node of the derivation chain carries a transaction value. -/
def Context.hasTxAttachment : Context → Bool
  | .base => false
  | .withTx _ _ => true
  | .withTimeout parent _ _ => parent.hasTxAttachment

/-- Whether any node of the derivation chain imposes a time bound. -/
def Context.hasDeadline : Context → Bool
  | .base => false
  | .withTx parent _ => parent.hasDeadline
  | .withTimeout _ _ _ => true

/-- A context is cancelled when one of its timeout nodes has had its cancel
function invoked (Go cancellation propagates from parents to children). -/
def Context.isCancelled (cancelledIds : List Nat) : Context → Bool
  | .base => false
  | .withTx parent _ => parent.isCancelled cancelledIds
  | .withTimeout parent _ id =>
      cancelledIds.contains id || parent.isCancelled cancelledIds

/-- Derive a chain of value-inheriting (timeout) children below `ctx`. -/
def deriveBounded (ctx : Context) : List (Int × Nat) → Context
  | [] => ctx
  | (d, id) :: rest => deriveBounded (Context.withTimeout ctx d id) rest

/-- The row source handed to a data operation: the shared pool or an
ambient transaction. -/
inductive RowSource where
  | pool : RowSource
  | txSrc : Tx → RowSource
deriving DecidableEq, Repr

/-- Payload of a `pgx.Rows` result: whether iteration would yield a row. -/
structure RowsData where
  hasNext : Bool
deriving DecidableEq, Repr

/-- A `pgx.Rows` cursor: lazily evaluated, bound to the context the query was
issued under. -/
structure Rows where
  ctx : Context
  data : RowsData
deriving DecidableEq, Repr

/-- Payload of a `pgx.Row`: the error its eventual `Scan` would yield
(none for a successful scan) absent cancellation. -/
structure RowData where
  scanErr : Option GoErr
deriving DecidableEq, Repr

/-- A `pgx.Row` accessor: lazily evaluated on first `Scan`, bound to the
context the query was issued under. -/
structure Row where
  ctx : Context
  data : RowData
deriving DecidableEq, Repr

/-- Modelled from the spec: first access to a lazily-evaluated cursor under a
cancelled context aborts with a Cancelled outcome (§5: a cancelled context
must abort in-flight work and surface Cancelled); otherwise iteration reflects
the underlying result set.  This is the external pgx collaborator's contract,
not repository code. -/
def Rows.next (cancelledIds : List Nat) (r : Rows) : Except GoErr Bool :=
  if r.ctx.isCancelled cancelledIds then .error .canceled
  else .ok r.data.hasNext

/-- Modelled from the spec: `Scan` on a single-row accessor under a cancelled
context surfaces Cancelled (§5); otherwise it yields the underlying scan
outcome.  External pgx collaborator contract, not repository code. -/
def Row.scan (cancelledIds : List Nat) (r : Row) : Option GoErr :=
  if r.ctx.isCancelled cancelledIds then some .canceled
  else r.data.scanErr

/-- The external collaborators behind the five data operations: the scany
mapping API (`scanApi.Get`/`scanApi.Select`) and the shared
execute/query/queryRow surface that both the pool and a transaction satisfy.
Each receives the context and the row source it was issued against. -/
structure Collab where
  scanGet : Context → RowSource → Dest → String → List String → Option GoErr
  scanSelect : Context → RowSource → Dest → String → List String → Option GoErr
  exec : Context → RowSource → String → List String → Except GoErr CommandTag
  query : Context → RowSource → String → List String → Except GoErr RowsData
  queryRow : Context → RowSource → String → List String → RowData

/-- The `client` struct.  Its `dbPool` and `scanApi` fields are the external
collaborators, passed explicitly as a `Collab`; only the computed
`queryTimeout` is state of the embedding. -/
structure client where
  queryTimeout : Int
deriving DecidableEq, Repr

/-- `(*client).getInTx`: route a one-row fetch to the ambient transaction if
present, else to the pool. -/
def client.getInTx (c : client) (co : Collab) (ctx : Context) (dest : Dest)
    (sql : String) (args : List String) : Option GoErr :=
  match txFromContext ctx with
  | some tx => co.scanGet ctx (.txSrc tx) dest sql args
  | none => co.scanGet ctx .pool dest sql args

/-- `(*client).selectInTx`: route a many-row fetch to the ambient transaction
if present, else to the pool. -/
def client.selectInTx (c : client) (co : Collab) (ctx : Context) (dest : Dest)
    (sql : String) (args : List String) : Option GoErr :=
  match txFromContext ctx with
  | some tx => co.scanSelect ctx (.txSrc tx) dest sql args
  | none => co.scanSelect ctx .pool dest sql args

/-- `(*client).execInTx`: route a statement execution to the ambient
transaction if present, else to the pool. -/
def client.execInTx (c : client) (co : Collab) (ctx : Context)
    (sql : String) (args : List String) : Except GoErr CommandTag :=
  match txFromContext ctx with
  | some tx => co.exec ctx (.txSrc tx) sql args
  | none => co.exec ctx .pool sql args

/-- `(*client).queryInTx`: route a cursor query to the ambient transaction if
present, else to the pool; the returned `pgx.Rows` is bound to the context
the query was issued under. -/
def client.queryInTx (c : client) (co : Collab) (ctx : Context)
    (sql : String) (args : List String) : Except GoErr Rows :=
  match txFromContext ctx with
  | some tx => (co.query ctx (.txSrc tx) sql args).map (fun d => ⟨ctx, d⟩)
  | none => (co.query ctx .pool sql args).map (fun d => ⟨ctx, d⟩)

/-- `(*client).queryRowsInTx`: route a single-row query to the ambient
transaction if present, else to the pool; the returned `pgx.Row` is bound to
the context the query was issued under. -/
def client.queryRowsInTx (c : client) (co : Collab) (ctx : Context)
    (sql : String) (args : List String) : Row :=
  match txFromContext ctx with
  | some tx => ⟨ctx, co.queryRow ctx (.txSrc tx) sql args⟩
  | none => ⟨ctx, co.queryRow ctx .pool sql args⟩

/-- Runtime state of the context machinery: a supply of fresh identifiers for
`context.WithTimeout` nodes, and the set of identifiers whose cancel function
has been invoked. -/
structure RtState where
  nextId : Nat
  cancelled : List Nat
deriving DecidableEq, Repr

/-- `(*client).Get`: derive a timeout-bounded child context, run the routed
one-row fetch under it, translate scany's not-found into the
records-not-found sentinel, and (the deferred `cancel()`) cancel the bound
before returning. -/
def client.Get (c : client) (co : Collab) (ctx : Context) (dest : Dest)
    (sql : String) (args : List String) (s : RtState) : Option GoErr × RtState :=
  let ctxWithTimeout := Context.withTimeout ctx c.queryTimeout s.nextId
  let res :=
    match c.getInTx co ctxWithTimeout dest sql args with
    | some err => if pgxscanNotFound err then some ErrRecordsNotFound else some err
    | none => none
  (res, ⟨s.nextId + 1, s.nextId :: s.cancelled⟩)

/-- `(*client).Select`: derive a timeout-bounded child context, run the routed
many-row fetch under it, translate scany's not-found into the
records-not-found sentinel, and cancel the bound before returning. -/
def client.Select (c : client) (co : Collab) (ctx : Context) (dest : Dest)
    (sql : String) (args : List String) (s : RtState) : Option GoErr × RtState :=
  let ctxWithTimeout := Context.withTimeout ctx c.queryTimeout s.nextId
  let res :=
    match c.selectInTx co ctxWithTimeout dest sql args with
    | some err => if pgxscanNotFound err then some ErrRecordsNotFound else some err
    | none => none
  (res, ⟨s.nextId + 1, s.nextId :: s.cancelled⟩)

/-- `(*client).Exec`: derive a timeout-bounded child context, run the routed
execution under it, and cancel the bound before returning. -/
def client.Exec (c : client) (co : Collab) (ctx : Context)
    (sql : String) (args : List String) (s : RtState) :
    Except GoErr CommandTag × RtState :=
  let ctxWithTimeout := Context.withTimeout ctx c.queryTimeout s.nextId
  (c.execInTx co ctxWithTimeout sql args, ⟨s.nextId + 1, s.nextId :: s.cancelled⟩)

/-- `(*client).Query`: derive a timeout-bounded child context, run the routed
cursor query under it, and cancel the bound (the deferred `cancel()`) before
handing the lazily-evaluated cursor back to the caller. -/
def client.Query (c : client) (co : Collab) (ctx : Context)
    (sql : String) (args : List String) (s : RtState) :
    Except GoErr Rows × RtState :=
  let ctxWithTimeout := Context.withTimeout ctx c.queryTimeout s.nextId
  (c.queryInTx co ctxWithTimeout sql args, ⟨s.nextId + 1, s.nextId :: s.cancelled⟩)

/-- `(*client).QueryRow`: derive a timeout-bounded child context, run the
routed single-row query under it, and cancel the bound before handing the
lazily-evaluated row accessor back to the caller. -/
def client.QueryRow (c : client) (co : Collab) (ctx : Context)
    (sql : String) (args : List String) (s : RtState) : Row × RtState :=
  let ctxWithTimeout := Context.withTimeout ctx c.queryTimeout s.nextId
  (c.queryRowsInTx co ctxWithTimeout sql args, ⟨s.nextId + 1, s.nextId :: s.cancelled⟩)

/-- Observable steps of one `InTx` invocation, each recording the context the
collaborator call was issued with. -/
inductive TxEvent where
  | acquireAttempt : Context → TxEvent
  | beginAttempt : Context → TxIsoLevel → TxEvent
  | callbackRun : Context → TxEvent
  | rollbackAttempt : Context → TxEvent
  | commitAttempt : Context → TxEvent
  | released : Conn → TxEvent
deriving DecidableEq, Repr

/-- The external collaborators behind `InTx`: the pool's `Acquire`, the
connection's `BeginTx`, and the transaction's `Commit`/`Rollback`. -/
structure TxEnv where
  acquire : Context → Except GoErr Conn
  beginTx : Context → TxIsoLevel → Except GoErr Tx
  commit : Context → Option GoErr
  rollback : Context → Option GoErr

/-- `(*client).InTx`: acquire a connection, begin a transaction at the given
isolation level, inject it into the context, run the callback, then commit on
success or roll back on failure; `defer conn.Release()` releases the acquired
connection after the body on every post-acquisition path.  Returns the Go
error result together with the trace of collaborator calls. -/
def client.InTx (env : TxEnv) (ctx : Context) (isoLevel : TxIsoLevel)
    (f : Context → Option GoErr) : Option GoErr × List TxEvent :=
  match env.acquire ctx with
  | .error e => (some (.fmtWrap "acquiring connection" e), [.acquireAttempt ctx])
  | .ok conn =>
    let body : Option GoErr × List TxEvent :=
      match env.beginTx ctx isoLevel with
      | .error e => (some (.fmtWrap "starting transaction" e),
          [.beginAttempt ctx isoLevel])
      | .ok tx =>
        let ctxWithTx := contextWithTx ctx tx
        match f ctxWithTx with
        | some err =>
          match env.rollback ctxWithTx with
          | some err1 => (some (.fmtRollback err1 err),
              [.beginAttempt ctx isoLevel, .callbackRun ctxWithTx,
               .rollbackAttempt ctxWithTx])
          | none => (some err,
              [.beginAttempt ctx isoLevel, .callbackRun ctxWithTx,
               .rollbackAttempt ctxWithTx])
        | none =>
          match env.commit ctxWithTx with
          | some err => (some (.fmtWrap "committing transaction" err),
              [.beginAttempt ctx isoLevel, .callbackRun ctxWithTx,
               .commitAttempt ctxWithTx])
          | none => (none,
              [.beginAttempt ctx isoLevel, .callbackRun ctxWithTx,
               .commitAttempt ctxWithTx])
    (body.1, .acquireAttempt ctx :: body.2 ++ [.released conn])

/-- Is this event a commit attempt? -/
def TxEvent.isCommit : TxEvent → Bool
  | .commitAttempt _ => true
  | _ => false

/-- Is this event a rollback attempt? -/
def TxEvent.isRollback : TxEvent → Bool
  | .rollbackAttempt _ => true
  | _ => false

/-- Is this event a connection release? -/
def TxEvent.isRelease : TxEvent → Bool
  | .released _ => true
  | _ => false

/-- Is this event a transaction begin attempt? -/
def TxEvent.isBegin : TxEvent → Bool
  | .beginAttempt _ _ => true
  | _ => false

/-- The `Config` struct (config.go). `time.Duration` fields are integers of
nanoseconds; string-typed pool sizes are kept as strings as in the source. -/
structure Config where
  Host : String
  Port : String
  Name : String
  User : String
  Password : String
  SSLMode : String
  QueryTimeout : Int
  PoolMinConnections : String
  PoolMaxConnections : String
  PoolMaxConnLife : Int
  PoolMaxConnIdle : Int
  EnableBeforeAcquirePing : Bool
  AllowUnknownColumns : Bool
deriving DecidableEq, Repr

/-- `(*Config).Valid`: reject the first missing required field, in source
order host, port, name, user, password. -/
def Config.Valid (c : Config) : Option GoErr :=
  if c.Host = "" then some (.base "'host' was not set")
  else if c.Port = "" then some (.base "'port' was not set")
  else if c.Name = "" then some (.base "'name' was not set")
  else if c.User = "" then some (.base "'user' was not set")
  else if c.Password = "" then some (.base "'password' was not set")
  else none

/-- `setIfNotEmpty`: record the pair only when the value is non-empty.  The
Go map is embedded as an insertion-ordered association list (Go's map
iteration order is unspecified; no claim depends on DSN ordering). -/
def setIfNotEmpty (m : List (String × String)) (key val : String) :
    List (String × String) :=
  if val ≠ "" then m ++ [(key, val)] else m

/-- `setIfPositiveDuration`: record the duration only when positive. -/
def setIfPositiveDuration (m : List (String × String)) (key : String)
    (d : Int) : List (String × String) :=
  if d > 0 then m ++ [(key, toString d)] else m

/-- `dbValues`: the DSN key/value pairs, empty fields omitted. -/
def dbValues (cfg : Config) : List (String × String) :=
  let p := setIfNotEmpty [] "dbname" cfg.Name
  let p := setIfNotEmpty p "user" cfg.User
  let p := setIfNotEmpty p "host" cfg.Host
  let p := setIfNotEmpty p "port" cfg.Port
  let p := setIfNotEmpty p "sslmode" cfg.SSLMode
  let p := setIfNotEmpty p "password" cfg.Password
  let p := setIfNotEmpty p "pool_min_conns" cfg.PoolMinConnections
  let p := setIfNotEmpty p "pool_max_conns" cfg.PoolMaxConnections
  let p := setIfPositiveDuration p "pool_max_conn_lifetime" cfg.PoolMaxConnLife
  let p := setIfPositiveDuration p "pool_max_conn_idle_time" cfg.PoolMaxConnIdle
  p

/-- `dbDSN`: join the key=value pairs with spaces. -/
def dbDSN (cfg : Config) : String :=
  String.intercalate " " ((dbValues cfg).map (fun kv => kv.1 ++ "=" ++ kv.2))

/-- `time.Second` in nanoseconds. -/
def timeSecond : Int := 1000000000

/-- Observable steps of `New`. -/
inductive NewEvent where
  | configParsed : String → NewEvent
  | poolCreated : NewEvent
  | pinged : NewEvent
  | dbScanAPICreated : NewEvent
  | scanAPICreated : NewEvent
deriving DecidableEq, Repr

/-- The external collaborators behind `New`: `pgxpool.ParseConfig`,
`pgxpool.NewWithConfig`, the initial `pool.Ping`, and the two scany API
constructors.  Each is the error outcome of that call (none for success). -/
structure NewEnv where
  parseConfig : String → Option GoErr
  newPool : Option GoErr
  poolPing : Option GoErr
  newDBScanAPI : Option GoErr
  newAPI : Option GoErr

/-- `New`: build the DSN from the configuration, parse it, create and ping
the pool, select the query timeout (the configured duration when positive,
otherwise five seconds), build the scany APIs, and return the client.  No
configuration validation is performed.  Returns the result together with the
trace of construction steps. -/
def New (env : NewEnv) (config : Config) : Except GoErr client × List NewEvent :=
  let dsnPool := dbDSN config
  match env.parseConfig dsnPool with
  | some e => (.error (.fmtWrap "failed to parse connection string" e),
      [.configParsed dsnPool])
  | none =>
    match env.newPool with
    | some e => (.error (.fmtWrap "failed to create connection pool" e),
        [.configParsed dsnPool])
    | none =>
      match env.poolPing with
      | some e => (.error (.fmtWrap "ping to database connection" e),
          [.configParsed dsnPool, .poolCreated])
      | none =>
        let timeout := if config.QueryTimeout > 0 then config.QueryTimeout
          else timeSecond * 5
        match env.newDBScanAPI with
        | some e => (.error (.fmtWrap "pgxscan.NewDBScanAPI" e),
            [.configParsed dsnPool, .poolCreated, .pinged])
        | none =>
          match env.newAPI with
          | some e => (.error (.fmtWrap "pgxscan.NewAPI" e),
              [.configParsed dsnPool, .poolCreated, .pinged, .dbScanAPICreated])
          | none => (.ok ⟨timeout⟩,
              [.configParsed dsnPool, .poolCreated, .pinged,
               .dbScanAPICreated, .scanAPICreated])

/-- The error translation performed by `Get`/`Select`: scany's not-found
becomes the records-not-found sentinel, everything else passes through. -/
def notFoundToRecordsNotFound : Option GoErr → Option GoErr
  | some err => if pgxscanNotFound err then some ErrRecordsNotFound else some err
  | none => none

/-! ### Helper lemmas -/

theorem txFromContext_deriveBounded (ds : List (Int × Nat)) (ctx : Context) :
    txFromContext (deriveBounded ctx ds) = txFromContext ctx := by
  induction ds generalizing ctx with
  | nil => rfl
  | cons hd tl ih =>
    cases hd with
    | mk d id => simpa [deriveBounded, txFromContext] using ih (Context.withTimeout ctx d id)

theorem withTx_ne (ctx : Context) : ∀ tx : Tx, Context.withTx ctx tx ≠ ctx := by
  induction ctx with
  | base => intro tx h; exact Context.noConfusion h
  | withTx p t ih => intro tx h; injection h with h1 h2; exact ih t h1
  | withTimeout p d id ih => intro tx h; exact Context.noConfusion h

theorem txFromContext_none_of_no_attachment (ctx : Context)
    (h : ctx.hasTxAttachment = false) : txFromContext ctx = none := by
  induction ctx with
  | base => rfl
  | withTx p t ih => simp [Context.hasTxAttachment] at h
  | withTimeout p d id ih => exact ih h

theorem errorsIs_self (e : GoErr) : errorsIs e e = true := by
  cases e <;> simp [errorsIs]

/-! ### Claims -/

/-- C8: attaching a transaction to a context and looking it up round-trips
(`txFromContext (contextWithTx ctx tx) = some tx`); attaching produces a new
derived context and leaves the original value untouched (the carrier is a
pure value, so the original's lookups are unaffected); a context whose
derivation chain carries no attachment looks up to none; and when a
descendant re-attaches a different transaction — with any number of derived
bounded children in between — lookup from the descendant yields the nearest
attachment. -/
theorem contextWithTx_roundtrip :
    (∀ (ctx : Context) (tx : Tx), txFromContext (contextWithTx ctx tx) = some tx) ∧
    (∀ (ctx : Context) (tx : Tx), contextWithTx ctx tx ≠ ctx) ∧
    (∀ ctx : Context, ctx.hasTxAttachment = false → txFromContext ctx = none) ∧
    (∀ (ctx : Context) (t1 t2 : Tx) (ds1 ds2 : List (Int × Nat)),
      txFromContext (deriveBounded (contextWithTx
        (deriveBounded (contextWithTx ctx t1) ds1) t2) ds2) = some t2) := by
  refine ⟨fun ctx tx => rfl, fun ctx tx => withTx_ne ctx tx,
    fun ctx h => txFromContext_none_of_no_attachment ctx h, fun ctx t1 t2 ds1 ds2 => ?_⟩
  rw [txFromContext_deriveBounded]
  rfl

/-- Witness for C8 at concrete inputs. -/
theorem contextWithTx_roundtrip_witness :
    txFromContext (contextWithTx Context.base 3) = some 3 ∧
    txFromContext Context.base = none ∧
    txFromContext (deriveBounded (contextWithTx
      (deriveBounded (contextWithTx Context.base 1) [(7, 0)]) 2) [(9, 1)]) = some 2 :=
  ⟨contextWithTx_roundtrip.1 Context.base 3,
   contextWithTx_roundtrip.2.2.1 Context.base rfl,
   contextWithTx_roundtrip.2.2.2 Context.base 1 2 [(7, 0)] [(9, 1)]⟩

/-- C1: for a context without an attached transaction each of the five
routed operations is issued against the pool; for a context that resolves to
a transaction — including any chain of derived bounded children below it —
each operation is issued against that transaction, never the pool (the
collaborator is quantified, so the equation pins down the row source
supplied). -/
theorem dual_mode_routing (c : client) (co : Collab) (ctx : Context)
    (dest : Dest) (sql : String) (args : List String) :
    (txFromContext ctx = none →
      c.getInTx co ctx dest sql args = co.scanGet ctx .pool dest sql args ∧
      c.selectInTx co ctx dest sql args = co.scanSelect ctx .pool dest sql args ∧
      c.execInTx co ctx sql args = co.exec ctx .pool sql args ∧
      c.queryInTx co ctx sql args =
        (co.query ctx .pool sql args).map (fun d => ⟨ctx, d⟩) ∧
      c.queryRowsInTx co ctx sql args = ⟨ctx, co.queryRow ctx .pool sql args⟩) ∧
    (∀ (t : Tx) (ds : List (Int × Nat)), txFromContext ctx = some t →
      c.getInTx co (deriveBounded ctx ds) dest sql args =
        co.scanGet (deriveBounded ctx ds) (.txSrc t) dest sql args ∧
      c.selectInTx co (deriveBounded ctx ds) dest sql args =
        co.scanSelect (deriveBounded ctx ds) (.txSrc t) dest sql args ∧
      c.execInTx co (deriveBounded ctx ds) sql args =
        co.exec (deriveBounded ctx ds) (.txSrc t) sql args ∧
      c.queryInTx co (deriveBounded ctx ds) sql args =
        (co.query (deriveBounded ctx ds) (.txSrc t) sql args).map
          (fun d => ⟨deriveBounded ctx ds, d⟩) ∧
      c.queryRowsInTx co (deriveBounded ctx ds) sql args =
        ⟨deriveBounded ctx ds, co.queryRow (deriveBounded ctx ds) (.txSrc t) sql args⟩) := by
  constructor
  · intro h
    refine ⟨?_, ?_, ?_, ?_, ?_⟩ <;>
      simp [client.getInTx, client.selectInTx, client.execInTx, client.queryInTx,
        client.queryRowsInTx, h]
  · intro t ds h
    have h' : txFromContext (deriveBounded ctx ds) = some t := by
      rw [txFromContext_deriveBounded]; exact h
    refine ⟨?_, ?_, ?_, ?_, ?_⟩ <;>
      simp [client.getInTx, client.selectInTx, client.execInTx, client.queryInTx,
        client.queryRowsInTx, h']

/-- A concrete collaborator whose answers identify the row source used. -/
def coProbe : Collab where
  scanGet := fun _ rs _ _ _ =>
    match rs with
    | .pool => some (.base "get-pool")
    | .txSrc t => some (.base ("get-tx-" ++ toString t))
  scanSelect := fun _ rs _ _ _ =>
    match rs with
    | .pool => some (.base "select-pool")
    | .txSrc t => some (.base ("select-tx-" ++ toString t))
  exec := fun _ rs _ _ =>
    match rs with
    | .pool => .ok "exec-pool"
    | .txSrc t => .ok ("exec-tx-" ++ toString t)
  query := fun _ rs _ _ =>
    match rs with
    | .pool => .ok ⟨false⟩
    | .txSrc _ => .ok ⟨true⟩
  queryRow := fun _ rs _ _ =>
    match rs with
    | .pool => ⟨none⟩
    | .txSrc _ => ⟨some .errNoRows⟩

/-- Witness for C1 at concrete inputs: the pool branch on a bare context and
the transaction branch on a context carrying transaction 7 under one derived
bounded child. -/
theorem dual_mode_routing_witness :
    client.getInTx ⟨5⟩ coProbe Context.base 0 "q" [] =
      coProbe.scanGet Context.base .pool 0 "q" [] ∧
    client.getInTx ⟨5⟩ coProbe (deriveBounded (contextWithTx Context.base 7) [(5, 0)])
        0 "q" [] =
      coProbe.scanGet (deriveBounded (contextWithTx Context.base 7) [(5, 0)])
        (.txSrc 7) 0 "q" [] :=
  ⟨((dual_mode_routing ⟨5⟩ coProbe Context.base 0 "q" []).1 rfl).1,
   ((dual_mode_routing ⟨5⟩ coProbe (contextWithTx Context.base 7) 0 "q" []).2
     7 [(5, 0)] rfl).1⟩

/-- C2: after a successful acquire and begin, a callback that returns success
leads to exactly one commit attempt and no rollback, with a commit failure
reported to the caller as a failure outcome (overriding the callback's
success); a callback that returns failure leads to exactly one rollback
attempt and no commit. -/
theorem inTx_commit_rollback_discipline (env : TxEnv) (ctx : Context)
    (isoLevel : TxIsoLevel) (f : Context → Option GoErr) (conn : Conn) (tx : Tx)
    (ha : env.acquire ctx = .ok conn) (hb : env.beginTx ctx isoLevel = .ok tx) :
    (f (contextWithTx ctx tx) = none →
      ((client.InTx env ctx isoLevel f).2.filter TxEvent.isCommit).length = 1 ∧
      ((client.InTx env ctx isoLevel f).2.filter TxEvent.isRollback).length = 0 ∧
      (env.commit (contextWithTx ctx tx) = none →
        (client.InTx env ctx isoLevel f).1 = none) ∧
      (∀ ce, env.commit (contextWithTx ctx tx) = some ce →
        (client.InTx env ctx isoLevel f).1 =
          some (.fmtWrap "committing transaction" ce))) ∧
    (∀ e, f (contextWithTx ctx tx) = some e →
      ((client.InTx env ctx isoLevel f).2.filter TxEvent.isRollback).length = 1 ∧
      ((client.InTx env ctx isoLevel f).2.filter TxEvent.isCommit).length = 0) := by
  constructor
  · intro hf
    cases hc : env.commit (contextWithTx ctx tx) <;>
      simp [client.InTx, ha, hb, hf, hc, TxEvent.isCommit, TxEvent.isRollback,
        List.filter]
  · intro e hf
    cases hr : env.rollback (contextWithTx ctx tx) <;>
      simp [client.InTx, ha, hb, hf, hr, TxEvent.isCommit, TxEvent.isRollback,
        List.filter]

/-- A concrete transaction environment in which every collaborator call
succeeds. -/
def txEnvOk : TxEnv where
  acquire := fun _ => .ok 0
  beginTx := fun _ _ => .ok 7
  commit := fun _ => none
  rollback := fun _ => none

/-- A concrete transaction environment in which commit and rollback fail. -/
def txEnvFinishFails : TxEnv where
  acquire := fun _ => .ok 0
  beginTx := fun _ _ => .ok 7
  commit := fun _ => some (.base "commit boom")
  rollback := fun _ => some (.base "rollback boom")

/-- Witness for C2: a succeeding callback under the all-success environment
commits once and never rolls back, returning success. -/
theorem inTx_commit_rollback_discipline_witness :
    ((client.InTx txEnvOk Context.base "serializable" (fun _ => none)).2.filter
      TxEvent.isCommit).length = 1 ∧
    ((client.InTx txEnvOk Context.base "serializable" (fun _ => none)).2.filter
      TxEvent.isRollback).length = 0 ∧
    (client.InTx txEnvOk Context.base "serializable" (fun _ => none)).1 = none := by
  have h := (inTx_commit_rollback_discipline txEnvOk Context.base "serializable"
    (fun _ => none) 0 7 rfl rfl).1 rfl
  exact ⟨h.1, h.2.1, h.2.2.1 rfl⟩

/-- C3: when the callback fails and the rollback also fails, the returned
error is the rollback-reporting error carrying both failures, and the
callback's original failure remains reachable through the unwrap chain
(errors.Is); when the rollback succeeds, exactly the callback's original
failure is returned. -/
theorem inTx_rollback_error_reporting (env : TxEnv) (ctx : Context)
    (isoLevel : TxIsoLevel) (f : Context → Option GoErr) (conn : Conn) (tx : Tx)
    (e : GoErr) (ha : env.acquire ctx = .ok conn)
    (hb : env.beginTx ctx isoLevel = .ok tx)
    (hf : f (contextWithTx ctx tx) = some e) :
    (∀ e1, env.rollback (contextWithTx ctx tx) = some e1 →
      (client.InTx env ctx isoLevel f).1 = some (.fmtRollback e1 e) ∧
      errorsIs (GoErr.fmtRollback e1 e) e = true) ∧
    (env.rollback (contextWithTx ctx tx) = none →
      (client.InTx env ctx isoLevel f).1 = some e) := by
  constructor
  · intro e1 hr
    refine ⟨by simp [client.InTx, ha, hb, hf, hr], ?_⟩
    simp [errorsIs, errorsIs_self]
  · intro hr
    simp [client.InTx, ha, hb, hf, hr]

/-- Witness for C3: a failing callback with a failing rollback under the
concrete environment returns the combined error whose unwrap chain still
reaches the original failure. -/
theorem inTx_rollback_error_reporting_witness :
    (client.InTx txEnvFinishFails Context.base "serializable"
      (fun _ => some (.base "cb boom"))).1 =
      some (.fmtRollback (.base "rollback boom") (.base "cb boom")) ∧
    errorsIs (GoErr.fmtRollback (.base "rollback boom") (.base "cb boom"))
      (.base "cb boom") = true := by
  have h := (inTx_rollback_error_reporting txEnvFinishFails Context.base
    "serializable" (fun _ => some (.base "cb boom")) 0 7 (.base "cb boom")
    rfl rfl rfl).1 (.base "rollback boom") rfl
  exact h

/-- C4: when acquisition succeeds, the acquired connection is released
exactly once on every exit path (the release trace is exactly one release of
that connection, whatever the begin/callback/commit/rollback outcomes); when
acquisition fails, `InTx` returns the wrapped acquisition error having
attempted nothing beyond the acquire — no transaction begun, nothing
released. -/
theorem inTx_connection_release (env : TxEnv) (ctx : Context)
    (isoLevel : TxIsoLevel) (f : Context → Option GoErr) :
    (∀ e, env.acquire ctx = .error e →
      client.InTx env ctx isoLevel f =
        (some (.fmtWrap "acquiring connection" e), [.acquireAttempt ctx]) ∧
      ((client.InTx env ctx isoLevel f).2.filter TxEvent.isBegin) = [] ∧
      ((client.InTx env ctx isoLevel f).2.filter TxEvent.isRelease) = []) ∧
    (∀ conn, env.acquire ctx = .ok conn →
      ((client.InTx env ctx isoLevel f).2.filter TxEvent.isRelease) =
        [.released conn]) := by
  constructor
  · intro e haq
    refine ⟨by simp [client.InTx, haq], ?_, ?_⟩ <;>
      simp [client.InTx, haq, TxEvent.isBegin, TxEvent.isRelease, List.filter]
  · intro conn haq
    cases hb : env.beginTx ctx isoLevel with
    | error e =>
      simp [client.InTx, haq, hb, TxEvent.isRelease, List.filter]
    | ok tx =>
      cases hf : f (contextWithTx ctx tx) with
      | none =>
        cases hc : env.commit (contextWithTx ctx tx) <;>
          simp [client.InTx, haq, hb, hf, hc, TxEvent.isRelease, List.filter]
      | some e =>
        cases hr : env.rollback (contextWithTx ctx tx) <;>
          simp [client.InTx, haq, hb, hf, hr, TxEvent.isRelease, List.filter]

/-- A concrete transaction environment whose acquisition fails. -/
def txEnvAcquireFails : TxEnv where
  acquire := fun _ => .error (.base "pool exhausted")
  beginTx := fun _ _ => .ok 7
  commit := fun _ => none
  rollback := fun _ => none

/-- Witness for C4: under the all-success environment the one acquired
connection is released exactly once, and under the failing-acquire
environment `InTx` aborts with the wrapped acquisition error and an
acquire-only trace. -/
theorem inTx_connection_release_witness :
    ((client.InTx txEnvOk Context.base "serializable" (fun _ => none)).2.filter
      TxEvent.isRelease) = [.released 0] ∧
    client.InTx txEnvAcquireFails Context.base "serializable" (fun _ => none) =
      (some (.fmtWrap "acquiring connection" (.base "pool exhausted")),
       [.acquireAttempt Context.base]) :=
  ⟨(inTx_connection_release txEnvOk Context.base "serializable"
      (fun _ => none)).2 0 rfl,
   ((inTx_connection_release txEnvAcquireFails Context.base "serializable"
      (fun _ => none)).1 (.base "pool exhausted") rfl).1⟩

/-- C9: a call to `InTx` whose context already carries an attached
transaction does not detect it: the pool acquisition and a fresh transaction
begin at the supplied isolation level still happen, and the callback runs
under a context resolving to the freshly begun transaction, not the ambient
one. -/
theorem inTx_ignores_ambient (env : TxEnv) (ctx : Context)
    (isoLevel : TxIsoLevel) (f : Context → Option GoErr) (t0 : Tx) (conn : Conn)
    (tx : Tx) (h0 : txFromContext ctx = some t0)
    (ha : env.acquire ctx = .ok conn)
    (hb : env.beginTx ctx isoLevel = .ok tx) :
    TxEvent.acquireAttempt ctx ∈ (client.InTx env ctx isoLevel f).2 ∧
    TxEvent.beginAttempt ctx isoLevel ∈ (client.InTx env ctx isoLevel f).2 ∧
    TxEvent.callbackRun (contextWithTx ctx tx) ∈ (client.InTx env ctx isoLevel f).2 ∧
    txFromContext (contextWithTx ctx tx) = some tx := by
  refine ⟨?_, ?_, ?_, rfl⟩ <;>
    · cases hf : f (contextWithTx ctx tx) with
      | none =>
        cases hc : env.commit (contextWithTx ctx tx) <;>
          simp [client.InTx, ha, hb, hf, hc]
      | some e =>
        cases hr : env.rollback (contextWithTx ctx tx) <;>
          simp [client.InTx, ha, hb, hf, hr]

/-- Witness for C9: calling `InTx` from a context already carrying
transaction 42 still acquires, still begins at the supplied isolation level,
and hands the callback a context resolving to the fresh transaction 7. -/
theorem inTx_ignores_ambient_witness :
    TxEvent.acquireAttempt (contextWithTx Context.base 42) ∈
      (client.InTx txEnvOk (contextWithTx Context.base 42) "serializable"
        (fun _ => none)).2 ∧
    TxEvent.beginAttempt (contextWithTx Context.base 42) "serializable" ∈
      (client.InTx txEnvOk (contextWithTx Context.base 42) "serializable"
        (fun _ => none)).2 ∧
    TxEvent.callbackRun (contextWithTx (contextWithTx Context.base 42) 7) ∈
      (client.InTx txEnvOk (contextWithTx Context.base 42) "serializable"
        (fun _ => none)).2 ∧
    txFromContext (contextWithTx (contextWithTx Context.base 42) 7) = some 7 :=
  inTx_ignores_ambient txEnvOk (contextWithTx Context.base 42) "serializable"
    (fun _ => none) 42 0 7 rfl rfl rfl

/-- C5: when the mapping collaborator's error signals the distinguished
not-found condition (errors.Is on `pgx.ErrNoRows`), `Get` and `Select`
return the records-not-found sentinel; any other collaborator error is
propagated to the caller unchanged; and the sentinel is distinct from every
other error kind of the taxonomy. -/
theorem get_select_records_not_found (c : client) (co : Collab) (ctx : Context)
    (dest : Dest) (sql : String) (args : List String) (s : RtState) (e : GoErr) :
    (c.getInTx co (Context.withTimeout ctx c.queryTimeout s.nextId) dest sql args =
        some e →
      (pgxscanNotFound e = true →
        (c.Get co ctx dest sql args s).1 = some ErrRecordsNotFound) ∧
      (pgxscanNotFound e = false →
        (c.Get co ctx dest sql args s).1 = some e)) ∧
    (c.selectInTx co (Context.withTimeout ctx c.queryTimeout s.nextId) dest sql args =
        some e →
      (pgxscanNotFound e = true →
        (c.Select co ctx dest sql args s).1 = some ErrRecordsNotFound) ∧
      (pgxscanNotFound e = false →
        (c.Select co ctx dest sql args s).1 = some e)) ∧
    (ErrRecordsNotFound ≠ .errNoRows ∧ ErrRecordsNotFound ≠ .canceled ∧
     (∀ msg, ErrRecordsNotFound ≠ .base msg) ∧
     (∀ msg cause, ErrRecordsNotFound ≠ .fmtWrap msg cause) ∧
     (∀ rb orig, ErrRecordsNotFound ≠ .fmtRollback rb orig)) := by
  refine ⟨fun hg => ⟨fun hnf => ?_, fun hnf => ?_⟩,
    fun hs => ⟨fun hnf => ?_, fun hnf => ?_⟩, ?_⟩
  · simp [client.Get, ErrRecordsNotFound, hg, hnf]
  · simp [client.Get, hg, hnf]
  · simp [client.Select, ErrRecordsNotFound, hs, hnf]
  · simp [client.Select, hs, hnf]
  · refine ⟨?_, ?_, fun msg => ?_, fun msg cause => ?_, fun rb orig => ?_⟩ <;>
      · intro h
        exact GoErr.noConfusion h

/-- A concrete collaborator whose one-row fetch reports a wrapped
`pgx.ErrNoRows` (as scany does) and whose many-row fetch reports an
unrelated infrastructure error. -/
def coNotFound : Collab where
  scanGet := fun _ _ _ _ _ => some (.fmtWrap "scanning one" .errNoRows)
  scanSelect := fun _ _ _ _ _ => some (.base "connection reset")
  exec := fun _ _ _ _ => .ok "tag"
  query := fun _ _ _ _ => .ok ⟨true⟩
  queryRow := fun _ _ _ _ => ⟨none⟩

/-- Witness for C5: a not-found mapping error becomes the sentinel on `Get`,
and an unrelated mapping error propagates unchanged through `Select`. -/
theorem get_select_records_not_found_witness :
    (client.Get ⟨5⟩ coNotFound Context.base 0 "q" [] ⟨0, []⟩).1 =
      some ErrRecordsNotFound ∧
    (client.Select ⟨5⟩ coNotFound Context.base 0 "q" [] ⟨0, []⟩).1 =
      some (.base "connection reset") ∧
    ErrRecordsNotFound ≠ GoErr.errNoRows := by
  have h := get_select_records_not_found ⟨5⟩ coNotFound Context.base 0 "q" []
    ⟨0, []⟩ (.fmtWrap "scanning one" .errNoRows)
  have h' := get_select_records_not_found ⟨5⟩ coNotFound Context.base 0 "q" []
    ⟨0, []⟩ (.base "connection reset")
  exact ⟨(h.1 rfl).1 (by decide), (h'.2.1 rfl).2 (by decide), h.2.2.1⟩

/-- C6 counterexample: `InTx` is a public facade operation, yet a concrete
run from the bare caller context shows every collaborator call — pool
acquisition, transaction begin, and the callback — executing under contexts
that carry no time bound at all: no time-bounded child context is derived. -/
theorem inTx_no_timeout_counterexample :
    (client.InTx txEnvOk Context.base "serializable" (fun _ => none)).2 =
      [.acquireAttempt Context.base,
       .beginAttempt Context.base "serializable",
       .callbackRun (contextWithTx Context.base 7),
       .commitAttempt (contextWithTx Context.base 7),
       .released 0] ∧
    Context.hasDeadline Context.base = false ∧
    Context.hasDeadline (contextWithTx Context.base 7) = false :=
  ⟨rfl, rfl, rfl⟩

/-- C6 as amended: each of the five data operations (`Get`, `Select`,
`Exec`, `Query`, `QueryRow`) derives a time-bounded child context from the
caller's context using the client's configured query-timeout duration and
executes the routed operation under exactly that child, and `New` sets that
duration to the configured value when positive and to the fixed default of
five seconds otherwise; `InTx`, though public, derives no bounded context
(see the counterexample). -/
theorem facade_timeout_envelope (c : client) (co : Collab) (ctx : Context)
    (dest : Dest) (sql : String) (args : List String) (s : RtState) :
    ((c.Get co ctx dest sql args s).1 =
      notFoundToRecordsNotFound
        (c.getInTx co (Context.withTimeout ctx c.queryTimeout s.nextId)
          dest sql args)) ∧
    ((c.Select co ctx dest sql args s).1 =
      notFoundToRecordsNotFound
        (c.selectInTx co (Context.withTimeout ctx c.queryTimeout s.nextId)
          dest sql args)) ∧
    ((c.Exec co ctx sql args s).1 =
      c.execInTx co (Context.withTimeout ctx c.queryTimeout s.nextId) sql args) ∧
    ((c.Query co ctx sql args s).1 =
      c.queryInTx co (Context.withTimeout ctx c.queryTimeout s.nextId) sql args) ∧
    ((c.QueryRow co ctx sql args s).1 =
      c.queryRowsInTx co (Context.withTimeout ctx c.queryTimeout s.nextId) sql args) ∧
    (Context.withTimeout ctx c.queryTimeout s.nextId).hasDeadline = true ∧
    (∀ (env : NewEnv) (cfg : Config) (cl : client) (evs : List NewEvent),
      New env cfg = (.ok cl, evs) →
      cl.queryTimeout =
        if cfg.QueryTimeout > 0 then cfg.QueryTimeout else timeSecond * 5) := by
  refine ⟨?_, ?_, rfl, rfl, rfl, rfl, ?_⟩
  · cases hg : c.getInTx co (Context.withTimeout ctx c.queryTimeout s.nextId)
      dest sql args <;>
      simp [client.Get, notFoundToRecordsNotFound, hg]
  · cases hg : c.selectInTx co (Context.withTimeout ctx c.queryTimeout s.nextId)
      dest sql args <;>
      simp [client.Select, notFoundToRecordsNotFound, hg]
  · intro env cfg cl evs h
    unfold New at h
    cases hp : env.parseConfig (dbDSN cfg) <;> simp [hp] at h
    cases hnp : env.newPool <;> simp [hnp] at h
    cases hpg : env.poolPing <;> simp [hpg] at h
    cases hd : env.newDBScanAPI <;> simp [hd] at h
    cases hn : env.newAPI <;> simp [hn] at h
    rw [← h.1]

/-- Witness for C6 (amended): at a concrete client and collaborator the five
equations evaluate, and a concrete successful `New` run with a non-positive
configured timeout yields the five-second default. -/
theorem facade_timeout_envelope_witness :
    (client.Exec ⟨5⟩ coProbe Context.base "q" [] ⟨0, []⟩).1 =
      client.execInTx ⟨5⟩ coProbe (Context.withTimeout Context.base 5 0) "q" [] ∧
    (Context.withTimeout Context.base 5 0).hasDeadline = true := by
  have h := facade_timeout_envelope ⟨5⟩ coProbe Context.base 0 "q" [] ⟨0, []⟩
  exact ⟨h.2.2.1, h.2.2.2.2.2.1⟩

/-- A concrete configuration whose password is empty but whose other
required fields are set. -/
def cfgNoPassword : Config where
  Host := "localhost"
  Port := "5432"
  Name := "db"
  User := "u"
  Password := ""
  SSLMode := ""
  QueryTimeout := 0
  PoolMinConnections := ""
  PoolMaxConnections := ""
  PoolMaxConnLife := 0
  PoolMaxConnIdle := 0
  EnableBeforeAcquirePing := false
  AllowUnknownColumns := false

/-- A concrete construction environment in which every collaborator call
succeeds. -/
def newEnvOk : NewEnv where
  parseConfig := fun _ => none
  newPool := none
  poolPing := none
  newDBScanAPI := none
  newAPI := none

/-- C7 counterexample: validation does reject the empty password, but `New`
never invokes validation — constructing the client with that very
configuration succeeds, and the pool is created, contradicting "fails during
validation before any pool is created". -/
theorem new_skips_validation_counterexample :
    Config.Valid cfgNoPassword = some (.base "'password' was not set") ∧
    (New newEnvOk cfgNoPassword).1 = .ok ⟨timeSecond * 5⟩ ∧
    NewEvent.poolCreated ∈ (New newEnvOk cfgNoPassword).2 := by
  refine ⟨by decide, rfl, ?_⟩
  simp [New, newEnvOk, dbDSN]

/-- C7 as amended: `Config.Valid` rejects exactly the configurations with an
empty host, port, database name, user, or password (reporting the first
missing field in that order), but `New` performs no validation — with every
external collaborator succeeding, construction succeeds for any
configuration, the empty-password one included, and the pool is created. -/
theorem config_valid_fields (cfg : Config) :
    (Config.Valid cfg = none ↔
      (cfg.Host ≠ "" ∧ cfg.Port ≠ "" ∧ cfg.Name ≠ "" ∧ cfg.User ≠ "" ∧
       cfg.Password ≠ "")) ∧
    (∀ env : NewEnv,
      (∀ dsn, env.parseConfig dsn = none) → env.newPool = none →
      env.poolPing = none → env.newDBScanAPI = none → env.newAPI = none →
      (New env cfg).1 =
        .ok ⟨if cfg.QueryTimeout > 0 then cfg.QueryTimeout else timeSecond * 5⟩ ∧
      NewEvent.poolCreated ∈ (New env cfg).2) := by
  constructor
  · unfold Config.Valid
    split <;> rename_i h1
    · simp [h1]
    · split <;> rename_i h2
      · simp [h1, h2]
      · split <;> rename_i h3
        · simp [h1, h2, h3]
        · split <;> rename_i h4
          · simp [h1, h2, h3, h4]
          · split <;> rename_i h5
            · simp [h1, h2, h3, h4, h5]
            · simp [h1, h2, h3, h4, h5]
  · intro env hp hnp hpg hd hn
    constructor <;> simp [New, hp, hnp, hpg, hd, hn]

/-- Witness for C7 (amended): a fully-populated configuration passes
validation, and construction of the empty-password configuration under the
all-success environment yields a client with the default timeout while
creating the pool. -/
theorem config_valid_fields_witness :
    Config.Valid { cfgNoPassword with Password := "pw" } = none ∧
    (New newEnvOk cfgNoPassword).1 = .ok ⟨timeSecond * 5⟩ ∧
    NewEvent.poolCreated ∈ (New newEnvOk cfgNoPassword).2 := by
  refine ⟨(config_valid_fields { cfgNoPassword with Password := "pw" }).1.mpr
    (by decide), ?_, ?_⟩
  · exact ((config_valid_fields cfgNoPassword).2 newEnvOk (fun _ => rfl) rfl rfl
      rfl rfl).1
  · exact ((config_valid_fields cfgNoPassword).2 newEnvOk (fun _ => rfl) rfl rfl
      rfl rfl).2

/-- The context a `queryInTx` cursor is bound to is the context the query was
issued under. -/
theorem queryInTx_ctx (c : client) (co : Collab) (ctx : Context) (sql : String)
    (args : List String) (rows : Rows)
    (h : c.queryInTx co ctx sql args = .ok rows) : rows.ctx = ctx := by
  unfold client.queryInTx at h
  cases htx : txFromContext ctx with
  | some tx =>
    simp only [htx] at h
    cases hq : co.query ctx (.txSrc tx) sql args with
    | error e => rw [hq] at h; simp [Except.map] at h
    | ok d =>
      rw [hq] at h
      simp only [Except.map] at h
      injection h with h2
      rw [← h2]
  | none =>
    simp only [htx] at h
    cases hq : co.query ctx .pool sql args with
    | error e => rw [hq] at h; simp [Except.map] at h
    | ok d =>
      rw [hq] at h
      simp only [Except.map] at h
      injection h with h2
      rw [← h2]

/-- The context a `queryRowsInTx` row accessor is bound to is the context the
query was issued under. -/
theorem queryRowsInTx_ctx (c : client) (co : Collab) (ctx : Context)
    (sql : String) (args : List String) :
    (c.queryRowsInTx co ctx sql args).ctx = ctx := by
  unfold client.queryRowsInTx
  cases txFromContext ctx <;> rfl

/-- C10: `Query` and `QueryRow` cancel their derived time-bounded context
(the deferred `cancel()`) before returning, so the lazily-evaluated cursor or
row accessor handed back is bound to an already-cancelled context: its first
access yields the cancellation error, whatever rows the statement matched. -/
theorem query_cancelled_before_return (c : client) (co : Collab) (ctx : Context)
    (sql : String) (args : List String) (s : RtState) (rows : Rows) :
    ((c.Query co ctx sql args s).1 = .ok rows →
      Rows.next ((c.Query co ctx sql args s).2).cancelled rows =
        .error .canceled) ∧
    (Row.scan ((c.QueryRow co ctx sql args s).2).cancelled
      (c.QueryRow co ctx sql args s).1 = some .canceled) := by
  constructor
  · intro h
    have hc : rows.ctx = Context.withTimeout ctx c.queryTimeout s.nextId :=
      queryInTx_ctx c co (Context.withTimeout ctx c.queryTimeout s.nextId)
        sql args rows h
    simp [Rows.next, hc, client.Query, Context.isCancelled]
  · have hc := queryRowsInTx_ctx c co
      (Context.withTimeout ctx c.queryTimeout s.nextId) sql args
    show Row.scan (s.nextId :: s.cancelled)
      (c.queryRowsInTx co (Context.withTimeout ctx c.queryTimeout s.nextId)
        sql args) = some .canceled
    simp [Row.scan, hc, Context.isCancelled]

/-- A concrete collaborator whose cursor query matches rows and whose
single-row query scans successfully. -/
def coMatching : Collab where
  scanGet := fun _ _ _ _ _ => none
  scanSelect := fun _ _ _ _ _ => none
  exec := fun _ _ _ _ => .ok "tag"
  query := fun _ _ _ _ => .ok ⟨true⟩
  queryRow := fun _ _ _ _ => ⟨none⟩

/-- Witness for C10: a concrete `Query` whose statement matched rows still
hands back a cursor whose first access is the cancellation error. -/
theorem query_cancelled_before_return_witness :
    Rows.next ((client.Query ⟨5⟩ coMatching Context.base "q" [] ⟨0, []⟩).2).cancelled
      ⟨Context.withTimeout Context.base 5 0, ⟨true⟩⟩ = .error .canceled ∧
    Row.scan ((client.QueryRow ⟨5⟩ coMatching Context.base "q" [] ⟨0, []⟩).2).cancelled
      (client.QueryRow ⟨5⟩ coMatching Context.base "q" [] ⟨0, []⟩).1 =
      some .canceled := by
  have h := query_cancelled_before_return ⟨5⟩ coMatching Context.base "q" []
    ⟨0, []⟩ ⟨Context.withTimeout Context.base 5 0, ⟨true⟩⟩
  exact ⟨h.1 rfl, h.2⟩

end Pgxscan
